import Mathlib

/-!
Verification development for the go-indigocore consensus-backed store.

Shallow embedding of:
- the link/segment data model (`cs` package shapes used by the code under study),
- the `validator` package's `multiValidator` (composite validator),
- the `tmstore` package's client bridge (`broadcastTx`, `sendQuery`, the read
  operations, `AddEvidence`, websocket start/retry),
- the `postgresstore` package's `Batch`,
- the tmpop consensus state machine, modelled from the spec (its code is not
  part of the sources under study; only its test cases are).

Machine integers do not overflow in any of the embedded control flow, so hashes
and opaque payloads are modelled as `Nat`; raw byte strings as `List Nat`.
External collaborators (the SHA-256 primitive, JSON encoding/decoding, the
Tendermint RPC transport, the SQL transaction) are passed in as explicit
arguments/outcomes, mirroring the points where the Go code calls out of the
repository.
-/

namespace Indigo

/-- A reference from a link to a prior link (`cs.SegmentReference`):
a process name and the referenced link's hash. -/
structure SegmentReference where
  process : String
  linkHash : Nat
deriving DecidableEq

/-- A link (`cs.Link`): one immutable step of a process chain. The opaque
state payload is modelled as a `Nat`. -/
structure Link where
  process : String
  linkType : String
  state : Nat
  refs : List SegmentReference
deriving DecidableEq

/-- An evidence (`cs.Evidence`): identified by `(backend, provider)`, with an
opaque proof payload. -/
structure Evidence where
  backend : String
  provider : String
  proof : Nat
deriving DecidableEq

/-- A segment (`cs.Segment`): a link plus its evidence envelope. -/
structure Segment where
  link : Link
  evidences : List Evidence
deriving DecidableEq

/-- The zero value of `cs.Segment`. -/
def emptySegment : Segment :=
  { link := { process := "", linkType := "", state := 0, refs := [] }, evidences := [] }

/-- Modelled from the spec: `cs.Segment.IsEmpty` (the `cs` package is not in
the sources under study) — a decoded segment is empty when it equals the zero
value, which `tmstore.GetSegment` normalizes to a nil segment. -/
def Segment.isEmpty (s : Segment) : Bool := decide (s = emptySegment)

/-- A store event (`store.Event`): either links saved by a commit, or
evidences saved, with their payloads (`store.SavedLinks` /
`store.SavedEvidences`). -/
inductive StoreEvent where
  | savedLinks (links : List Link)
  | savedEvidences (evidences : List (Nat × Evidence))
deriving DecidableEq

/-! ## The `validator` package: `multiValidator` -/

/-- Errors produced on the validation path. Child validators return opaque
errors (`err`); `multiValidator.Validate` itself produces the
"does not match any validator" error. -/
inductive VErr where
  | err (msg : String)
  | noMatchingValidator (process linkType : String)
deriving DecidableEq

/-- A member of the `validator.Validator` interface: `Validate` returns
`none` on success and the error otherwise (the `store.SegmentReader` and
context arguments do not influence the control flow embedded here and are
absorbed into the closure); `Hash` returns the validator state digest
(32 bytes, modelled as `List Nat`) or an error. -/
structure Validator where
  ShouldValidate : Link → Bool
  Validate : Link → Option VErr
  Hash : Except VErr (List Nat)

/-- `multiValidator`: a collection of single-purpose validators. -/
structure MultiValidator where
  validators : List Validator

/-- The loop body of `multiValidator.Hash`: append every child digest in list
order, stopping at the first child whose `Hash` fails
(`errors.WithStack` preserves the underlying error value). -/
def collectHashes : List Validator → Except VErr (List Nat)
  | [] => .ok []
  | v :: rest =>
    match v.Hash with
    | .error e => .error e
    | .ok h =>
      match collectHashes rest with
      | .error e => .error e
      | .ok hs => .ok (h ++ hs)

/-- `multiValidator.Hash`: SHA-256 of the concatenation of the child digests in
list order. The SHA-256 primitive (`crypto/sha256`, external) is passed in. -/
def MultiValidator.Hash (sha256 : List Nat → List Nat) (v : MultiValidator) :
    Except VErr (List Nat) :=
  match collectHashes v.validators with
  | .error e => .error e
  | .ok b => .ok (sha256 b)

/-- `multiValidator.ShouldValidate`: always true. -/
def MultiValidator.ShouldValidate (_ : MultiValidator) (_ : Link) : Bool := true

/-- `multiValidator.matchValidators`: the child validators whose
`ShouldValidate` accepts the link, in list order. -/
def MultiValidator.matchValidators (v : MultiValidator) (l : Link) : List Validator :=
  v.validators.filter (fun child => child.ShouldValidate l)

/-- The loop body of `multiValidator.Validate`: run each matched child in
order, returning the first error. -/
def validateChildren : List Validator → Link → Option VErr
  | [], _ => none
  | child :: rest, l =>
    match child.Validate l with
    | some e => some e
    | none => validateChildren rest l

/-- `multiValidator.Validate`: reject when no child matches; otherwise run the
matched children in order and return the first error, if any. -/
def MultiValidator.Validate (v : MultiValidator) (l : Link) : Option VErr :=
  let linkValidators := v.matchValidators l
  if linkValidators.isEmpty then
    some (.noMatchingValidator l.process l.linkType)
  else
    validateChildren linkValidators l

/-! ## The `tmstore` package: remote client bridge -/

/-- ABCI result code for success (`abci.CodeTypeOK`); `IsOK`/`IsErr` compare
the code against it. -/
def CodeTypeOK : Nat := 0

/-- `tmpop.CodeTypeValidation`, the distinguished code for validation
rejections. Its numeric value is not in the sources under study; only that it
differs from `CodeTypeOK` matters to the embedded control flow. -/
def CodeTypeValidation : Nat := 400

/-- One ABCI transaction response (`abci.ResponseCheckTx` /
`abci.ResponseDeliverTx`): result code plus human-readable log. -/
structure TxResult where
  code : Nat
  log : String
deriving DecidableEq

/-- `IsErr` on an ABCI transaction response: the code is not `CodeTypeOK`. -/
def TxResult.isErr (r : TxResult) : Bool := decide (r.code ≠ CodeTypeOK)

/-- `ctypes.ResultBroadcastTxCommit`: the check-phase and deliver-phase
responses for a transaction broadcast with commit wait. -/
structure BroadcastResult where
  checkTx : TxResult
  deliverTx : TxResult
deriving DecidableEq

/-- Errors surfaced by the tmstore client, classified by how the Go code
constructs them: `badRequest` is `jsonhttp.NewErrBadRequest` (the
validation-class error), `generic` is `fmt.Errorf`, `transport` is the RPC
client's error returned unchanged, `encoding` is a `json.Marshal` /
`BuildQueryBinary` failure returned unchanged. -/
inductive TMError where
  | badRequest (msg : String)
  | generic (msg : String)
  | transport (msg : String)
  | encoding (msg : String)
deriving DecidableEq

/-- The validation-class errors among `TMError`: exactly the bad-request
(`jsonhttp.NewErrBadRequest`) errors. -/
def TMError.isValidationClass : TMError → Bool
  | .badRequest _ => true
  | _ => false

/-- `TMStore.broadcastTx`: marshal the transaction, broadcast it with commit
wait, then classify the result. A check-phase rejection with the validation
code becomes a bad-request error; any other check-phase rejection and every
deliver-phase rejection become a `fmt.Errorf` error carrying the log.
`marshal` is the outcome of `json.Marshal` and `broadcast` the outcome of
`tmClient.BroadcastTxCommit`, both external calls. -/
def broadcastTx (marshal : Except String Unit)
    (broadcast : Except String BroadcastResult) : Except TMError BroadcastResult :=
  match marshal with
  | .error e => .error (.encoding e)
  | .ok _ =>
    match broadcast with
    | .error e => .error (.transport e)
    | .ok result =>
      if result.checkTx.isErr then
        if result.checkTx.code = CodeTypeValidation then
          .error (.badRequest result.checkTx.log)
        else
          .error (.generic result.checkTx.log)
      else if result.deliverTx.isErr then
        .error (.generic result.deliverTx.log)
      else
        .ok result

/-- `TMStore.CreateLink`: hash the link, broadcast a `CreateLink` transaction,
and return the hash together with any error from the broadcast. The link hash
function (`cs.Link.Hash`, an external canonical-encoding digest) is passed
in. -/
def CreateLink (hash : Link → Nat) (l : Link) (marshal : Except String Unit)
    (broadcast : Except String BroadcastResult) : Nat × Option TMError :=
  (hash l,
    match broadcastTx marshal broadcast with
    | .error e => some e
    | .ok _ => none)

/-- `abci.ResponseQuery`: result code and an optional raw value
(`nil` modelled as `none`). -/
structure ResponseQuery where
  code : Nat
  value : Option (List Nat)
deriving DecidableEq

/-- `IsOK` on an ABCI query response. -/
def ResponseQuery.isOK (r : ResponseQuery) : Bool := decide (r.code = CodeTypeOK)

/-- `TMStore.sendQuery`, returning the Go `(res, err)` pair: a nil response
with the error when building the query or the RPC call fails or the response
is not OK, and the response with a nil error otherwise. `build` is the
outcome of `tmpop.BuildQueryBinary` and `abciQuery` the outcome of
`tmClient.ABCIQuery`, both external calls. -/
def sendQuery (build : Except String Unit) (abciQuery : Except String ResponseQuery) :
    Option ResponseQuery × Option String :=
  match build with
  | .error e => (none, some e)
  | .ok _ =>
    match abciQuery with
    | .error e => (none, some e)
    | .ok response =>
      if response.isOK then (some response, none)
      else (none, some "NOK Response from TMPop")

/-- Outcome of a Go method call: a normal return of a value together with the
returned error, or a runtime panic (nil-pointer dereference). -/
inductive GoResult (α : Type) where
  | ret (val : α) (err : Option String)
  | panics
deriving DecidableEq

/-- `TMStore.GetSegment`: query, return nil on query error or nil value,
decode otherwise, and normalize an empty decoded segment to nil.
`dec` models `json.Unmarshal` into a fresh segment: the (possibly partially
filled) segment and the unmarshalling error. -/
def GetSegment (dec : List Nat → Segment × Option String)
    (build : Except String Unit) (abciQuery : Except String ResponseQuery) :
    GoResult (Option Segment) :=
  match sendQuery build abciQuery with
  | (_, some e) => .ret none (some e)
  | (none, none) => .panics
  | (some response, none) =>
    match response.value with
    | none => .ret none none
    | some bytes =>
      let (segment, err) := dec bytes
      match err with
      | some e => .ret (some segment) (some e)
      | none =>
        if segment.isEmpty then .ret none none
        else .ret (some segment) none

/-- `TMStore.FindSegments`: query, return the error on query failure, decode
the raw value otherwise (with no nil-value check: `json.Unmarshal` of a nil
byte slice yields a decode error, which `dec` models by taking the optional
value). -/
def FindSegments (dec : Option (List Nat) → List Segment × Option String)
    (build : Except String Unit) (abciQuery : Except String ResponseQuery) :
    GoResult (List Segment) :=
  match sendQuery build abciQuery with
  | (_, some e) => .ret [] (some e)
  | (none, none) => .panics
  | (some response, none) =>
    let (segments, err) := dec response.value
    .ret segments err

/-- `TMStore.GetMapIDs`: queries, then unmarshals `response.Value` WITHOUT
checking the query error first; when the query failed the response pointer is
nil and the `response.Value` field access panics. -/
def GetMapIDs (dec : Option (List Nat) → List String × Option String)
    (build : Except String Unit) (abciQuery : Except String ResponseQuery) :
    GoResult (List String) :=
  match sendQuery build abciQuery with
  | (none, _) => .panics
  | (some response, _) =>
    let (ids, err) := dec response.value
    .ret ids err

/-- `TMStore.GetEvidences`: starts from an empty evidence collection, returns
it unchanged on query error or nil value, and decodes otherwise. -/
def GetEvidences (dec : List Nat → List Evidence × Option String)
    (build : Except String Unit) (abciQuery : Except String ResponseQuery) :
    GoResult (List Evidence) :=
  match sendQuery build abciQuery with
  | (_, some e) => .ret [] (some e)
  | (none, none) => .panics
  | (some response, none) =>
    match response.value with
    | none => .ret [] none
    | some bytes =>
      let (evidences, err) := dec bytes
      .ret evidences err

/-- One operation of the tmstore client against Tendermint: an ABCI query by
name, or a consensus transaction broadcast. -/
inductive TMOp where
  | query (name : String)
  | broadcast
deriving DecidableEq

/-- `TMStore.AddEvidence`: stores the evidence through a direct `AddEvidence`
ABCI query (no consensus transaction), and on success pushes one
`SavedEvidences` event carrying the `(linkHash, evidence)` pair to every
registered store event channel. Returns the error, the events pushed to each
of the `chans` registered channels, and the Tendermint operations that were
performed. -/
def AddEvidence (linkHash : Nat) (evidence : Evidence) (chans : Nat)
    (build : Except String Unit) (abciQuery : Except String ResponseQuery) :
    Option String × List (List StoreEvent) × List TMOp :=
  match sendQuery build abciQuery with
  | (_, some e) => (some e, List.replicate chans [], [.query "AddEvidence"])
  | (_, none) =>
    (none,
     List.replicate chans [.savedEvidences [(linkHash, evidence)]],
     [.query "AddEvidence"])

/-- `tmstore.ErrAlreadySubscribed`: the message of the error returned by the
Tendermint RPC client on a duplicate subscription. -/
def ErrAlreadySubscribed : String := "already subscribed"

/-- `tmcommon.ErrAlreadyStarted` (external): the error returned by `Start` on
an already-running client; only its identity matters here. -/
def ErrAlreadyStarted : String := "already started"

/-- The external outcomes a `StartWebsocket` run observes: whether the
Tendermint client is already running, the outcome of `tmClient.Start`, and
the outcome of `tmClient.Subscribe` (each `none` = success). -/
structure WsEnv where
  isRunning : Bool
  startResult : Option String
  subscribeResult : Option String
deriving DecidableEq

/-- The subscription step of `TMStore.StartWebsocket`: a subscribe error whose
message is `ErrAlreadySubscribed` is swallowed and the method returns nil. -/
def subscribeStep (env : WsEnv) : Option String :=
  match env.subscribeResult with
  | some e => if e = ErrAlreadySubscribed then none else some e
  | none => none

/-- `TMStore.StartWebsocket`: start the client when it is not running
(tolerating `ErrAlreadyStarted`), then subscribe to new-block events,
treating an "already subscribed" response as success. -/
def StartWebsocket (env : WsEnv) : Option String :=
  if env.isRunning then subscribeStep env
  else
    match env.startResult with
    | some e => if e = ErrAlreadyStarted then subscribeStep env else some e
    | none => subscribeStep env

/-- The retry body of `TMStore.RetryStartWebsocket`: run `StartWebsocket`; an
"already subscribed" error stops the retry loop reporting success; any other
error sleeps for the fixed interval and asks for a retry; success returns a
nil error (which stops the loop). -/
def retryAttempt (env : WsEnv) : Bool × Option String :=
  match StartWebsocket env with
  | some e => if e = ErrAlreadySubscribed then (false, none) else (true, some e)
  | none => (true, none)

/-- Modelled from the spec: `utils.Retry` (the `utils` package is not in the
sources under study) — calls the body with an increasing attempt counter
until it reports success (nil error) or asks not to retry; with a maximum
attempt count of 0 it retries indefinitely. Embedded with explicit fuel:
`none` means the loop is still running after `fuel` attempts, `some r` means
it returned `r`. -/
def retryRun (body : Nat → Bool × Option String) : Nat → Nat → Option (Option String)
  | _, 0 => none
  | attempt, fuel + 1 =>
    let (retry, err) := body attempt
    if err = none ∨ retry = false then some err
    else retryRun body (attempt + 1) fuel

/-- `TMStore.RetryStartWebsocket`: retry `StartWebsocket` with the unbounded
(`maxAttempts = 0`) retry loop. `envs n` gives the external outcomes observed
by the n-th attempt. -/
def RetryStartWebsocket (envs : Nat → WsEnv) (fuel : Nat) : Option (Option String) :=
  retryRun (fun n => retryAttempt (envs n)) 0 fuel

/-! ## The `postgresstore` package: `Batch` -/

/-- `postgresstore.Batch`: the links created through the batch so far, the
number of registered store event channels, and the `done` flag. The embedded
reader/writer statements run inside the open SQL transaction and are external
to the control flow studied here. -/
structure Batch where
  Links : List Link
  chans : Nat
  done : Bool
deriving DecidableEq

/-- A freshly created batch (`postgresstore.NewBatch`): no links yet,
`done = false`. -/
def Batch.new (chans : Nat) : Batch := { Links := [], chans := chans, done := false }

/-- `Batch.CreateLink`: record the link in `b.Links` (the SQL insert itself is
executed by the embedded writer inside the still-open transaction). -/
def Batch.CreateLink (b : Batch) (l : Link) : Batch :=
  { b with Links := b.Links ++ [l] }

/-- A batch that created the links `ls` in order, starting from a fresh
batch. -/
def mkBatch (chans : Nat) (ls : List Link) : Batch :=
  ls.foldl Batch.CreateLink (Batch.new chans)

/-- What one `Batch.Write` call produced: the returned error, the links made
durable by the SQL commit, and the events pushed to each registered
channel. -/
structure WriteOutcome where
  err : Option String
  durable : List Link
  pushed : List (List StoreEvent)
deriving DecidableEq

/-- `Batch.Write`: commit the SQL transaction (`tx.Commit`, external and
atomic: on success every insert of the transaction becomes durable, on
failure none does), and on success push one combined `SavedLinks` event
holding all the batch's links to every registered event channel. The Go code
also sets the `done` flag before committing; nothing in the sources under
study reads it back, so the outcome omits it. -/
def Batch.Write (b : Batch) (commit : Option String) : WriteOutcome :=
  match commit with
  | some e => { err := some e, durable := [], pushed := List.replicate b.chans [] }
  | none =>
    { err := none
      durable := b.Links
      pushed := List.replicate b.chans [.savedLinks b.Links] }

/-! ## The tmpop consensus state machine, modelled from the spec

The `tmpop` package is not part of the sources under study (only its test
cases in `tmpoptestcases` are), so the state machine is modelled from the
spec: the checked-set of speculatively validated link hashes, the committed
store, the block's staged links, the pending `SavedLinks` event queue drained
by the `PendingEvents` query, and the two reference-resolution scopes of the
validation gate. -/

/-- Modelled from the spec: the node-local state of the tmpop application —
durably committed links, links staged (delivered) in the current block, the
checked-set of link hashes, the links delivered since the last commit
(the material of the next `SavedLinks` event), and the pending events not yet
drained. -/
structure TMPop where
  committed : List Link
  staged : List Link
  checked : List Nat
  pendingLinks : List Link
  pendingEvents : List StoreEvent
deriving DecidableEq

/-- The state of a fresh tmpop node: everything empty. -/
def TMPop.init : TMPop :=
  { committed := [], staged := [], checked := [], pendingLinks := [], pendingEvents := [] }

/-- Modelled from the spec: `CommittedScope` — the hashes of links durably
committed, including links delivered earlier within the same in-progress
block. `hash` is the link content-hash function (external digest). -/
def committedScope (hash : Link → Nat) (st : TMPop) : List Nat :=
  (st.committed ++ st.staged).map hash

/-- Modelled from the spec: `CommittedAndCheckedScope` — the committed scope
plus the checked-set. -/
def checkedScope (hash : Link → Nat) (st : TMPop) : List Nat :=
  committedScope hash st ++ st.checked

/-- Modelled from the spec: the reference resolver — every declared reference
must name a link hash present in the scope. -/
def refsResolve (scope : List Nat) (l : Link) : Bool :=
  l.refs.all (fun r => decide (r.linkHash ∈ scope))

/-- Modelled from the spec: `CheckTransaction` for a create-link transaction —
run the content rule engine (`ruleOK`, the external pluggable validator) and
resolve references in the committed-and-checked scope; on success add the
link's hash to the checked-set and return the OK code, on failure return the
validation code without touching any state. -/
def TMPop.CheckTx (hash : Link → Nat) (ruleOK : Link → Bool) (st : TMPop) (l : Link) :
    Nat × TMPop :=
  if ruleOK l && refsResolve (checkedScope hash st) l then
    (CodeTypeOK, { st with checked := st.checked ++ [hash l] })
  else
    (CodeTypeValidation, st)

/-- Modelled from the spec: `DeliverTransaction` for a create-link
transaction — run the content rule engine and resolve references in the
committed scope only; on success stage the link (visible to later deliveries
in the same block) and enqueue it for the block's `SavedLinks` event, on
failure return the validation code with no effect. -/
def TMPop.DeliverTx (hash : Link → Nat) (ruleOK : Link → Bool) (st : TMPop) (l : Link) :
    Nat × TMPop :=
  if ruleOK l && refsResolve (committedScope hash st) l then
    (CodeTypeOK,
     { st with staged := st.staged ++ [l], pendingLinks := st.pendingLinks ++ [l] })
  else
    (CodeTypeValidation, st)

/-- Modelled from the spec: `Commit` — flush the staged links to the durable
store, clear the staged and checked state, and make the block's single
combined `SavedLinks` event (when the block delivered at least one link)
retrievable by the `PendingEvents` query. -/
def TMPop.Commit (st : TMPop) : TMPop :=
  { committed := st.committed ++ st.staged
    staged := []
    checked := []
    pendingLinks := []
    pendingEvents :=
      st.pendingEvents ++
        if st.pendingLinks.isEmpty then [] else [.savedLinks st.pendingLinks] }

/-- Modelled from the spec: the `PendingEvents` query — return the events not
yet drained and discard them (a second drain returns nothing new). -/
def TMPop.PendingEvents (st : TMPop) : List StoreEvent × TMPop :=
  (st.pendingEvents, { st with pendingEvents := [] })

/-- Deliver a list of links in order, threading the state. -/
def TMPop.deliverList (hash : Link → Nat) (ruleOK : Link → Bool) :
    TMPop → List Link → TMPop
  | st, [] => st
  | st, l :: rest =>
    TMPop.deliverList hash ruleOK (TMPop.DeliverTx hash ruleOK st l).2 rest

/-- Every delivery in the list is accepted (returns the OK code) when run in
order from the given state. -/
def TMPop.allDelivered (hash : Link → Nat) (ruleOK : Link → Bool) :
    TMPop → List Link → Bool
  | _, [] => true
  | st, l :: rest =>
    let (code, st1) := TMPop.DeliverTx hash ruleOK st l
    decide (code = CodeTypeOK) && TMPop.allDelivered hash ruleOK st1 rest

/-! ## Concrete fixtures used by the witnesses and counterexamples -/

/-- A concrete link content-hash function for witnesses: the links used below
carry distinct opaque payloads, so their payload doubles as their digest. -/
def hashFix : Link → Nat := fun l => l.state

/-- A content rule engine accepting every link (witness fixture). -/
def ruleTrue : Link → Bool := fun _ => true

/-- A concrete link with no references. -/
def linkA : Link := { process := "p", linkType := "sell", state := 1, refs := [] }

/-- A concrete link referencing `linkA` (whose `hashFix` digest is 1). -/
def linkB : Link :=
  { process := "p", linkType := "buy", state := 2
    refs := [{ process := "p", linkHash := 1 }] }

/-- A concrete link whose process matches no child validator below. -/
def linkQ : Link := { process := "q", linkType := "t", state := 3, refs := [] }

/-- Decode stub: unmarshalling that yields an empty segment. -/
def decSegStub : List Nat → Segment × Option String := fun _ => (emptySegment, none)

/-- Decode stub for segment slices. -/
def decSegsStub : Option (List Nat) → List Segment × Option String := fun _ => ([], none)

/-- Decode stub for string slices. -/
def decStringsStub : Option (List Nat) → List String × Option String := fun _ => ([], none)

/-- Decode stub for evidence collections. -/
def decEvsStub : List Nat → List Evidence × Option String := fun _ => ([], none)

/-- A broadcast result rejected at the speculative check phase with the
validation code. -/
def checkRejectResult : BroadcastResult :=
  { checkTx := { code := CodeTypeValidation, log := "bad link" }
    deliverTx := { code := CodeTypeOK, log := "" } }

/-- A broadcast result accepted at the check phase and rejected at the
delivery phase with the validation code. -/
def deliverRejectResult : BroadcastResult :=
  { checkTx := { code := CodeTypeOK, log := "" }
    deliverTx := { code := CodeTypeValidation, log := "link validation failed" } }

/-- Websocket environment in which the subscribe call reports "already
subscribed". -/
def envSubscribedOK : WsEnv :=
  { isRunning := true, startResult := none, subscribeResult := some ErrAlreadySubscribed }

/-- Websocket environment in which the subscribe call fails with a transient
connection error. -/
def envConnRefused : WsEnv :=
  { isRunning := true, startResult := none, subscribeResult := some "connection refused" }

/-- Websocket environment in which everything succeeds. -/
def envAllOK : WsEnv :=
  { isRunning := true, startResult := none, subscribeResult := none }

/-- A child validator matching process "p" that accepts every link, with a
healthy state digest. -/
def valP : Validator :=
  { ShouldValidate := fun l => decide (l.process = "p")
    Validate := fun _ => none
    Hash := .ok [1] }

/-- A child validator matching every link that rejects every link, with a
healthy state digest. -/
def valReject : Validator :=
  { ShouldValidate := fun _ => true
    Validate := fun _ => some (.err "child rejected")
    Hash := .ok [2] }

/-- A child validator whose state digest computation fails. -/
def valBadHash : Validator :=
  { ShouldValidate := fun _ => true
    Validate := fun _ => none
    Hash := .error (.err "hash failed") }

/-- A concrete stand-in for the SHA-256 primitive in witnesses. -/
def shaStub : List Nat → List Nat := fun b => 0 :: b

/-- A concrete evidence. -/
def evFix : Evidence := { backend := "TMPop", provider := "1", proof := 0 }

/-- Websocket environment in which the client start itself reports "already
subscribed" (the only way `StartWebsocket` surfaces that message). -/
def envStartAlreadySub : WsEnv :=
  { isRunning := false, startResult := some ErrAlreadySubscribed, subscribeResult := none }

/-! ## Theorems -/

/-- C3 (counterexample): a transaction accepted at the check phase and
rejected at the delivery phase with the validation code surfaces as a
`fmt.Errorf` generic error, which is not the validation class
(`jsonhttp.NewErrBadRequest`) used for check-phase rejections — so the error
class does depend on the phase, contrary to the claim. -/
theorem C3_counterexample :
    broadcastTx (.ok ()) (.ok deliverRejectResult) =
      .error (.generic "link validation failed") ∧
    (TMError.generic "link validation failed").isValidationClass = false := by
  exact ⟨rfl, rfl⟩

/-- C3 (amended): a check-phase rejection carrying the validation code
surfaces as a validation-class (bad request) error, while a delivery-phase
rejection surfaces as a generic error carrying the rejection log — the two
phases yield different error classes. -/
theorem C3_amended_error_classes (r : BroadcastResult) :
    (r.checkTx.code = CodeTypeValidation →
      broadcastTx (.ok ()) (.ok r) = .error (.badRequest r.checkTx.log)) ∧
    (r.checkTx.code = CodeTypeOK → r.deliverTx.code ≠ CodeTypeOK →
      broadcastTx (.ok ()) (.ok r) = .error (.generic r.deliverTx.log)) := by
  constructor
  · intro h
    simp [broadcastTx, TxResult.isErr, h, CodeTypeValidation, CodeTypeOK]
  · intro h hd
    simp [broadcastTx, TxResult.isErr, h, CodeTypeOK]
    simpa [CodeTypeOK] using hd

/-- Witness for C3: the amended theorem applied to a concrete check-phase
rejection and a concrete delivery-phase rejection. -/
theorem C3_amended_witness :
    broadcastTx (.ok ()) (.ok checkRejectResult) = .error (.badRequest "bad link") ∧
    broadcastTx (.ok ()) (.ok deliverRejectResult) =
      .error (.generic "link validation failed") := by
  constructor
  · exact (C3_amended_error_classes checkRejectResult).1 rfl
  · exact (C3_amended_error_classes deliverRejectResult).2 rfl (by decide)

/-- C4: evaluating the four client read operations when the query transport
fails. `GetMapIDs` dereferences the nil response and panics, while its three
siblings (which check the query error first) return the error gracefully —
the code contradicts the no-panic claim on exactly this function. -/
theorem C4_reads_on_transport_error :
    GetMapIDs decStringsStub (.ok ()) (.error "connection refused") = .panics ∧
    GetSegment decSegStub (.ok ()) (.error "connection refused") =
      .ret none (some "connection refused") ∧
    FindSegments decSegsStub (.ok ()) (.error "connection refused") =
      .ret [] (some "connection refused") ∧
    GetEvidences decEvsStub (.ok ()) (.error "connection refused") =
      .ret [] (some "connection refused") := by
  exact ⟨rfl, rfl, rfl, rfl⟩

/-- C6: when the state machine reports no value for the queried hash, or the
decoded segment is empty, `GetSegment` returns a nil segment with no error;
a non-empty decoded segment is returned as-is with no error. -/
theorem C6_getSegment_not_found (dec : List Nat → Segment × Option String)
    (resp : ResponseQuery) (hOK : resp.code = CodeTypeOK) :
    (resp.value = none → GetSegment dec (.ok ()) (.ok resp) = .ret none none) ∧
    (∀ bytes s, resp.value = some bytes → dec bytes = (s, none) → s.isEmpty = true →
      GetSegment dec (.ok ()) (.ok resp) = .ret none none) ∧
    (∀ bytes s, resp.value = some bytes → dec bytes = (s, none) → s.isEmpty = false →
      GetSegment dec (.ok ()) (.ok resp) = .ret (some s) none) := by
  have hsq : sendQuery (.ok ()) (.ok resp) = (some resp, none) := by
    simp [sendQuery, ResponseQuery.isOK, hOK, CodeTypeOK]
  refine ⟨?_, ?_, ?_⟩
  · intro hv
    simp [GetSegment, hsq, hv]
  · intro bytes s hv hdec hempty
    simp [GetSegment, hsq, hv, hdec, hempty]
  · intro bytes s hv hdec hempty
    simp [GetSegment, hsq, hv, hdec, hempty]

/-- Witness for C6: a concrete nil-value response and a concrete response
decoding to the empty segment both yield a nil segment and no error. -/
theorem C6_witness :
    GetSegment decSegStub (.ok ()) (.ok { code := CodeTypeOK, value := none }) =
      .ret none none ∧
    GetSegment decSegStub (.ok ()) (.ok { code := CodeTypeOK, value := some [] }) =
      .ret none none := by
  constructor
  · exact (C6_getSegment_not_found decSegStub { code := CodeTypeOK, value := none } rfl).1 rfl
  · exact (C6_getSegment_not_found decSegStub { code := CodeTypeOK, value := some [] }
      rfl).2.1 [] emptySegment rfl rfl (by decide)

/-- The links of a batch built by folding `Batch.CreateLink` are the initial
links followed by the created ones, and the channel registry is untouched. -/
theorem foldl_createLink (ls : List Link) : ∀ b : Batch,
    (ls.foldl Batch.CreateLink b).Links = b.Links ++ ls ∧
    (ls.foldl Batch.CreateLink b).chans = b.chans := by
  induction ls with
  | nil => intro b; simp
  | cons l rest ih =>
    intro b
    have h := ih { b with Links := b.Links ++ [l] }
    simp [List.foldl_cons, Batch.CreateLink] at h ⊢
    exact ⟨h.1, h.2⟩

/-- C7: a batch that created `ls` commits all of them or none — when the SQL
commit fails `Write` returns the error, nothing becomes durable, and no event
is pushed; on success all of `ls` become durable and each registered channel
receives exactly one combined `SavedLinks` event holding exactly `ls` in
creation order. -/
theorem C7_batch_atomic_write (chans : Nat) (ls : List Link) (e : String) :
    ((mkBatch chans ls).Write (some e)).err = some e ∧
    ((mkBatch chans ls).Write (some e)).durable = [] ∧
    ((mkBatch chans ls).Write (some e)).pushed = List.replicate chans [] ∧
    ((mkBatch chans ls).Write none).err = none ∧
    ((mkBatch chans ls).Write none).durable = ls ∧
    ((mkBatch chans ls).Write none).pushed =
      List.replicate chans [StoreEvent.savedLinks ls] := by
  obtain ⟨hL, hc⟩ := foldl_createLink ls (Batch.new chans)
  have hL2 : (mkBatch chans ls).Links = ls := by simpa [mkBatch, Batch.new] using hL
  have hc2 : (mkBatch chans ls).chans = chans := by simpa [mkBatch, Batch.new] using hc
  simp [Batch.Write, hL2, hc2]

/-- C8: `AddEvidence` performs a single direct `AddEvidence` ABCI query — no
consensus transaction broadcast — and on success pushes exactly one
`SavedEvidences` event carrying the `(linkHash, evidence)` pair to each
registered channel; on query failure it returns the error and pushes
nothing. -/
theorem C8_addEvidence_direct (h : Nat) (ev : Evidence) (chans : Nat)
    (resp : ResponseQuery) (hOK : resp.code = CodeTypeOK) (e : String) :
    AddEvidence h ev chans (.ok ()) (.ok resp) =
      (none, List.replicate chans [.savedEvidences [(h, ev)]], [.query "AddEvidence"]) ∧
    TMOp.broadcast ∉ (AddEvidence h ev chans (.ok ()) (.ok resp)).2.2 ∧
    AddEvidence h ev chans (.ok ()) (.error e) =
      (some e, List.replicate chans [], [.query "AddEvidence"]) := by
  have hsq : sendQuery (.ok ()) (.ok resp) = (some resp, none) := by
    simp [sendQuery, ResponseQuery.isOK, hOK, CodeTypeOK]
  refine ⟨?_, ?_, ?_⟩
  · simp [AddEvidence, hsq]
  · simp [AddEvidence, hsq]
  · rfl

/-- Witness for C8: a concrete evidence addition with two registered
channels. -/
theorem C8_witness :
    AddEvidence 1 evFix 2 (.ok ()) (.ok { code := CodeTypeOK, value := none }) =
      (none,
       [[.savedEvidences [(1, evFix)]], [.savedEvidences [(1, evFix)]]],
       [.query "AddEvidence"]) :=
  (C8_addEvidence_direct 1 evFix 2 { code := CodeTypeOK, value := none } rfl "x").1

/-- When every child digest succeeds, the collected bytes are the
concatenation of the child digests in list order. -/
theorem collectHashes_ok (vs : List Validator) : ∀ hs : List (List Nat),
    vs.map Validator.Hash = hs.map Except.ok → collectHashes vs = .ok hs.flatten := by
  induction vs with
  | nil =>
    intro hs h
    cases hs with
    | nil => rfl
    | cons a t => simp at h
  | cons v rest ih =>
    intro hs h
    cases hs with
    | nil => simp at h
    | cons hh ht =>
      simp only [List.map_cons, List.cons.injEq] at h
      obtain ⟨h1, h2⟩ := h
      simp [collectHashes, h1, ih ht h2]

/-- The collected digest bytes fail with the error of the first child whose
digest computation fails. -/
theorem collectHashes_first_error (bad : Validator) (post : List Validator) (e : VErr)
    (hbad : bad.Hash = .error e) : ∀ pre : List Validator,
    (∀ c ∈ pre, ∃ hv, c.Hash = .ok hv) →
    collectHashes (pre ++ bad :: post) = .error e := by
  intro pre
  induction pre with
  | nil =>
    intro _
    simp [collectHashes, hbad]
  | cons c rest ih =>
    intro hpre
    obtain ⟨hv, hc⟩ := hpre c (by simp)
    have hrest := ih (fun x hx => hpre x (by simp [hx]))
    simp [collectHashes, hc, hrest]

/-- C9: the composite validator's digest is the SHA-256 of the concatenation
of the child digests in list order, and it fails with the error of a failing
child (the first one) when any child digest computation fails. -/
theorem C9_composite_hash (sha256 : List Nat → List Nat) (vs : List Validator)
    (hs : List (List Nat)) (pre : List Validator) (bad : Validator)
    (post : List Validator) (e : VErr) :
    (vs.map Validator.Hash = hs.map Except.ok →
      MultiValidator.Hash sha256 ⟨vs⟩ = .ok (sha256 hs.flatten)) ∧
    ((∀ c ∈ pre, ∃ hv, c.Hash = .ok hv) → bad.Hash = .error e →
      MultiValidator.Hash sha256 ⟨pre ++ bad :: post⟩ = .error e) := by
  constructor
  · intro h
    simp [MultiValidator.Hash, collectHashes_ok vs hs h]
  · intro hpre hbad
    simp [MultiValidator.Hash, collectHashes_first_error bad post e hbad pre hpre]

/-- Witness for C9: a composite of two healthy children hashes the
concatenation `[1] ++ [2]` of their digests, and a composite containing a
child with a failing digest propagates that child's error. -/
theorem C9_witness :
    MultiValidator.Hash shaStub ⟨[valP, valReject]⟩ = .ok [0, 1, 2] ∧
    MultiValidator.Hash shaStub ⟨[valP, valBadHash]⟩ = .error (.err "hash failed") := by
  constructor
  · exact (C9_composite_hash shaStub [valP, valReject] [[1], [2]] [] valBadHash []
      (.err "")).1 rfl
  · refine (C9_composite_hash shaStub [] [] [valP] valBadHash [] (.err "hash failed")).2
      ?_ rfl
    intro c hc
    rw [List.mem_singleton] at hc
    subst hc
    exact ⟨[1], rfl⟩

/-- Running the matched children succeeds when every one of them accepts the
link. -/
theorem validateChildren_all_ok (l : Link) : ∀ cs : List Validator,
    (∀ c ∈ cs, c.Validate l = none) → validateChildren cs l = none := by
  intro cs
  induction cs with
  | nil => intro _; rfl
  | cons c rest ih =>
    intro h
    have hc := h c (by simp)
    simp [validateChildren, hc, ih (fun x hx => h x (by simp [hx]))]

/-- Running the matched children returns the error of the first child that
rejects the link. -/
theorem validateChildren_first_error (bad : Validator) (post : List Validator)
    (l : Link) (e : VErr) (hbad : bad.Validate l = some e) : ∀ pre : List Validator,
    (∀ c ∈ pre, c.Validate l = none) →
    validateChildren (pre ++ bad :: post) l = some e := by
  intro pre
  induction pre with
  | nil =>
    intro _
    simp [validateChildren, hbad]
  | cons c rest ih =>
    intro hpre
    have hc := hpre c (by simp)
    simp [validateChildren, hc, ih (fun x hx => hpre x (by simp [hx]))]

/-- C10: a link matching no child validator is rejected with the
"does not match any validator" error; when children match, validation
succeeds exactly when every matching child accepts, and otherwise returns
the error of the first matching child that rejects. -/
theorem C10_fail_closed_validation (v : MultiValidator) (l : Link) :
    (v.matchValidators l = [] →
      v.Validate l = some (.noMatchingValidator l.process l.linkType)) ∧
    (v.matchValidators l ≠ [] → (∀ c ∈ v.matchValidators l, c.Validate l = none) →
      v.Validate l = none) ∧
    (∀ pre bad post e, v.matchValidators l = pre ++ bad :: post →
      (∀ c ∈ pre, c.Validate l = none) → bad.Validate l = some e →
      v.Validate l = some e) := by
  refine ⟨?_, ?_, ?_⟩
  · intro h
    simp [MultiValidator.Validate, h]
  · intro hne hall
    have hempty : (v.matchValidators l).isEmpty = false := by
      cases hm : v.matchValidators l with
      | nil => exact absurd hm hne
      | cons a t => rfl
    simp only [MultiValidator.Validate, hempty, Bool.false_eq_true, if_false]
    exact validateChildren_all_ok l (v.matchValidators l) hall
  · intro pre bad post e hm hpre hbad
    have hempty : (v.matchValidators l).isEmpty = false := by
      rw [hm]; cases pre <;> rfl
    simp only [MultiValidator.Validate, hempty, Bool.false_eq_true, if_false]
    rw [hm]
    exact validateChildren_first_error bad post l e hbad pre hpre

/-- Witness for C10: a link matching no child is rejected with the no-match
error; a link matched only by a rejecting child gets that child's error; a
link matched by an accepting child validates. -/
theorem C10_witness :
    MultiValidator.Validate ⟨[valP]⟩ linkQ =
      some (.noMatchingValidator "q" "t") ∧
    MultiValidator.Validate ⟨[valP, valReject]⟩ linkQ = some (.err "child rejected") ∧
    MultiValidator.Validate ⟨[valP]⟩ linkA = none := by
  refine ⟨?_, ?_, ?_⟩
  · exact (C10_fail_closed_validation ⟨[valP]⟩ linkQ).1 rfl
  · exact (C10_fail_closed_validation ⟨[valP, valReject]⟩ linkQ).2.2 [] valReject [] _
      rfl (fun c hc => absurd hc (List.not_mem_nil c)) rfl
  · refine (C10_fail_closed_validation ⟨[valP]⟩ linkA).2.1 ?_ ?_
    · exact fun h => List.noConfusion h
    · intro c hc
      have hm : MultiValidator.matchValidators ⟨[valP]⟩ linkA = [valP] := rfl
      rw [hm, List.mem_singleton] at hc
      subst hc
      rfl

/-- The retry loop never returns while every attempt asks for a retry with a
non-nil error. -/
theorem retryRun_never_stops (body : Nat → Bool × Option String)
    (h : ∀ n, (body n).1 = true ∧ (body n).2 ≠ none) :
    ∀ fuel a, retryRun body a fuel = none := by
  intro fuel
  induction fuel with
  | zero => intro a; rfl
  | succ k ih =>
    intro a
    rcases hb : body a with ⟨retry, err⟩
    have h1 : retry = true := by have := (h a).1; rw [hb] at this; exact this
    have h2 : err ≠ none := by have := (h a).2; rw [hb] at this; exact this
    simp only [retryRun, hb, h1]
    rw [if_neg (by simp [h2])]
    exact ih (a + 1)

/-- C5: the subscription start-up treats an "already subscribed" response as
success — `StartWebsocket` swallows it at the subscribe step, and the retry
loop stops immediately (without retrying) when `StartWebsocket` reports it —
while a plain success also stops the loop at once and any other error keeps
the unbounded loop retrying forever (it has not returned after any number of
attempts). -/
theorem C5_subscription_retry (env : WsEnv) (envs : Nat → WsEnv) (fuel : Nat) :
    (env.startResult = none → env.subscribeResult = some ErrAlreadySubscribed →
      StartWebsocket env = none) ∧
    (StartWebsocket (envs 0) = some ErrAlreadySubscribed → 0 < fuel →
      RetryStartWebsocket envs fuel = some none) ∧
    (StartWebsocket (envs 0) = none → 0 < fuel →
      RetryStartWebsocket envs fuel = some none) ∧
    ((∀ n, ∃ e, StartWebsocket (envs n) = some e ∧ e ≠ ErrAlreadySubscribed) →
      RetryStartWebsocket envs fuel = none) := by
  refine ⟨?_, ?_, ?_, ?_⟩
  · intro hs hsub
    cases hr : env.isRunning <;>
      simp [StartWebsocket, subscribeStep, hr, hs, hsub]
  · intro h hf
    cases fuel with
    | zero => exact absurd hf (by simp)
    | succ k =>
      simp [RetryStartWebsocket, retryRun, retryAttempt, h]
  · intro h hf
    cases fuel with
    | zero => exact absurd hf (by simp)
    | succ k =>
      simp [RetryStartWebsocket, retryRun, retryAttempt, h]
  · intro h
    refine retryRun_never_stops _ ?_ fuel 0
    intro n
    obtain ⟨e, he, hne⟩ := h n
    simp [retryAttempt, he, hne]

/-- Witness for C5: the concrete environments — an "already subscribed"
subscribe response is success; an "already subscribed" start error stops the
retry loop with success; a clean start stops it with success; a connection
error keeps it running after 7 attempts. -/
theorem C5_witness :
    StartWebsocket envSubscribedOK = none ∧
    RetryStartWebsocket (fun _ => envStartAlreadySub) 3 = some none ∧
    RetryStartWebsocket (fun _ => envAllOK) 3 = some none ∧
    RetryStartWebsocket (fun _ => envConnRefused) 7 = none := by
  refine ⟨?_, ?_, ?_, ?_⟩
  · exact (C5_subscription_retry envSubscribedOK (fun _ => envSubscribedOK) 3).1 rfl rfl
  · exact (C5_subscription_retry envSubscribedOK (fun _ => envStartAlreadySub) 3).2.1
      rfl (by decide)
  · exact (C5_subscription_retry envSubscribedOK (fun _ => envAllOK) 3).2.2.1
      rfl (by decide)
  · exact (C5_subscription_retry envSubscribedOK (fun _ => envConnRefused) 7).2.2.2
      (fun n => ⟨"connection refused", rfl, by decide⟩)

/-- C1: when L2 references L1 and L1 has only been checked (not delivered) in
the round, the check phase accepts L2 (the checked-set is in scope) but the
delivery phase rejects it with the validation code (only committed and staged
links are in scope); when L1 was instead delivered earlier in the same block,
the delivery phase accepts L2. -/
theorem C1_two_phase_divergence (hash : Link → Nat) (ruleOK : Link → Bool)
    (st : TMPop) (l1 l2 : Link) (p : String)
    (h1 : ruleOK l1 = true) (h2 : ruleOK l2 = true)
    (hr1 : l1.refs = []) (hr2 : l2.refs = [{ process := p, linkHash := hash l1 }])
    (hfresh : hash l1 ∉ committedScope hash st) :
    (TMPop.CheckTx hash ruleOK st l1).1 = CodeTypeOK ∧
    (TMPop.CheckTx hash ruleOK (TMPop.CheckTx hash ruleOK st l1).2 l2).1 = CodeTypeOK ∧
    (TMPop.DeliverTx hash ruleOK (TMPop.CheckTx hash ruleOK st l1).2 l2).1 =
      CodeTypeValidation ∧
    (TMPop.DeliverTx hash ruleOK (TMPop.DeliverTx hash ruleOK st l1).2 l2).1 =
      CodeTypeOK := by
  have hchk1 : TMPop.CheckTx hash ruleOK st l1 =
      (CodeTypeOK, { st with checked := st.checked ++ [hash l1] }) := by
    simp [TMPop.CheckTx, refsResolve, hr1, h1]
  have hdel1 : TMPop.DeliverTx hash ruleOK st l1 =
      (CodeTypeOK,
       { st with staged := st.staged ++ [l1], pendingLinks := st.pendingLinks ++ [l1] }) := by
    simp [TMPop.DeliverTx, refsResolve, hr1, h1]
  refine ⟨by rw [hchk1], ?_, ?_, ?_⟩
  · rw [hchk1]
    simp [TMPop.CheckTx, refsResolve, hr2, h2, checkedScope]
  · rw [hchk1]
    have hscope : committedScope hash { st with checked := st.checked ++ [hash l1] } =
        committedScope hash st := rfl
    simp [TMPop.DeliverTx, refsResolve, hr2, h2, hscope, hfresh]
  · rw [hdel1]
    simp [TMPop.DeliverTx, refsResolve, hr2, h2, committedScope]

/-- Witness for C1: the concrete two-link scenario from a fresh node — link A
with no references, link B referencing A. -/
theorem C1_witness :
    (TMPop.CheckTx hashFix ruleTrue TMPop.init linkA).1 = CodeTypeOK ∧
    (TMPop.CheckTx hashFix ruleTrue
      (TMPop.CheckTx hashFix ruleTrue TMPop.init linkA).2 linkB).1 = CodeTypeOK ∧
    (TMPop.DeliverTx hashFix ruleTrue
      (TMPop.CheckTx hashFix ruleTrue TMPop.init linkA).2 linkB).1 =
      CodeTypeValidation ∧
    (TMPop.DeliverTx hashFix ruleTrue
      (TMPop.DeliverTx hashFix ruleTrue TMPop.init linkA).2 linkB).1 = CodeTypeOK :=
  C1_two_phase_divergence hashFix ruleTrue TMPop.init linkA linkB "p"
    rfl rfl rfl rfl (by simp [committedScope, TMPop.init])

/-- Delivering a list of links whose deliveries are all accepted appends them
to the block's pending links, in delivery order, and leaves the drained-event
queue untouched. -/
theorem deliverList_pending (hash : Link → Nat) (ruleOK : Link → Bool) :
    ∀ (ls : List Link) (st : TMPop), TMPop.allDelivered hash ruleOK st ls = true →
      (TMPop.deliverList hash ruleOK st ls).pendingLinks = st.pendingLinks ++ ls ∧
      (TMPop.deliverList hash ruleOK st ls).pendingEvents = st.pendingEvents := by
  intro ls
  induction ls with
  | nil => intro st _; simp [TMPop.deliverList]
  | cons l rest ih =>
    intro st h
    by_cases hc : (ruleOK l && refsResolve (committedScope hash st) l) = true
    · have hd : TMPop.DeliverTx hash ruleOK st l =
          (CodeTypeOK,
           { st with staged := st.staged ++ [l],
                     pendingLinks := st.pendingLinks ++ [l] }) := by
        simp [TMPop.DeliverTx, hc]
      rw [TMPop.allDelivered, hd] at h
      simp [CodeTypeOK] at h
      have := ih _ h
      rw [TMPop.deliverList, hd]
      simp only [this.1, this.2]
      simp
    · have hd : TMPop.DeliverTx hash ruleOK st l = (CodeTypeValidation, st) := by
        simp only [TMPop.DeliverTx, hc]
        simp [hc]
      rw [TMPop.allDelivered, hd] at h
      simp [CodeTypeOK, CodeTypeValidation] at h

/-- C2: from a state with no pending links or events, after a block delivers
the links `ls` (each accepted) and commits, the first drain of the pending
events returns exactly one `SavedLinks` event holding exactly `ls` in
delivery order, and a second drain immediately after returns nothing. -/
theorem C2_event_completeness (hash : Link → Nat) (ruleOK : Link → Bool)
    (st : TMPop) (ls : List Link)
    (hpl : st.pendingLinks = []) (hpe : st.pendingEvents = [])
    (hacc : TMPop.allDelivered hash ruleOK st ls = true) (hne : ls ≠ []) :
    (TMPop.PendingEvents (TMPop.Commit (TMPop.deliverList hash ruleOK st ls))).1 =
      [StoreEvent.savedLinks ls] ∧
    (TMPop.PendingEvents
      (TMPop.PendingEvents
        (TMPop.Commit (TMPop.deliverList hash ruleOK st ls))).2).1 = [] := by
  obtain ⟨h1, h2⟩ := deliverList_pending hash ruleOK ls st hacc
  rw [hpl] at h1
  rw [hpe] at h2
  constructor
  · simp [TMPop.PendingEvents, TMPop.Commit, h1, h2]
    intro hempty
    exact absurd hempty hne
  · simp [TMPop.PendingEvents]

/-- Witness for C2: a fresh node delivers link A then link B (which
references A, legal at the delivery phase once A is staged) and commits; one
drain returns the single combined event, the next returns nothing. -/
theorem C2_witness :
    (TMPop.PendingEvents
      (TMPop.Commit (TMPop.deliverList hashFix ruleTrue TMPop.init [linkA, linkB]))).1 =
      [StoreEvent.savedLinks [linkA, linkB]] ∧
    (TMPop.PendingEvents
      (TMPop.PendingEvents
        (TMPop.Commit
          (TMPop.deliverList hashFix ruleTrue TMPop.init [linkA, linkB]))).2).1 = [] :=
  C2_event_completeness hashFix ruleTrue TMPop.init [linkA, linkB]
    rfl rfl (by decide) (by decide)

end Indigo
